import Mathlib

/-
Verification development for the `hier` crate: a JNI-backed class-hierarchy
query library.  We shallowly embed the Rust sources:

  * `src/model/modifiers.rs`   — the `Modifiers` bitset and its predicate forms,
  * `src/model/class.rs`       — `ClassInternal`: memoized accessors and
                                 `common_superclass` (the module compiled by
                                 `lib.rs` via `mod model`),
  * `src/class.rs`             — the earlier `Class::common_superclass` variant,
  * `src/classpool.rs`/`lib.rs`— the class cache (`fetch_class`,
                                 `fetch_class_from_jclass_internal`),
  * `src/classpath.rs`         — `ClassPath::convert`.

JNI handles are modelled as natural-number identities; the JNI environment
(the Provider) is an abstract oracle supplying `isAssignableFrom` answers,
superclass links and modifier words.  `once_cell` lazy fields are modelled
with an explicit `Option` cell plus a call counter, reproducing
`OnceCell::get_or_try_init` semantics (a failed initializer leaves the cell
unset).  Loops are given a fuel parameter; `none` models a non-terminating
run, `some r` a run that finished with result `r`.
-/

namespace Hier

/-- Mirror of `HierError` (src/errors.rs).  Only the constructor structure
matters here; the dangling error carries the identity of the class it was
raised for in place of the formatted class-name string. -/
inductive HierError where
  | javaError : HierError
  | cacheAccessError : HierError
  | danglingClassError (id : Nat) : HierError
  deriving DecidableEq, Repr

/-! ## Modifiers (src/model/modifiers.rs) -/

namespace Modifiers

/-- Bit value of `Modifiers::Public`. -/
def publicBit : Nat := 0x0001
/-- Bit value of `Modifiers::Interface`. -/
def interfaceBit : Nat := 0x0200
/-- Bit value of the non-public constant `Modifiers::Synthetic`. -/
def syntheticBit : Nat := 0x1000
/-- Bit value of the non-public constant `Modifiers::Annotation`. -/
def annotationBit : Nat := 0x2000

/-- Union of every flag declared inside the `bitflags!` block
(`Public ..= Strict` and the composite masks, all contained in `0x0FFF`);
`bitflags::from_bits_truncate` keeps exactly these bits. -/
def knownBits : Nat := 0x0FFF

/-- `Modifiers::from_bits_truncate(bits)` — keep only the declared bits. -/
def from_bits_truncate (bits : Nat) : Nat := bits &&& knownBits

/-- `bitflags` `contains`: `(self.bits & other.bits) == other.bits`. -/
def contains (bits flag : Nat) : Bool := bits &&& flag == flag

/-- `Modifiers::is_interface_bits` (macro arm without `as u16`):
`Self::from_bits_truncate(bits).is_interface()`, i.e. a `contains` test. -/
def is_interface_bits (bits : Nat) : Bool :=
  contains (from_bits_truncate bits) interfaceBit

/-- `Modifiers::is_annotation_bits` (macro arm `$flag:ident as u16`):
the source tests `bits & Self::Annotation != 1`. -/
def is_annotation_bits (bits : Nat) : Bool :=
  bits &&& annotationBit != 1

/-- `Modifiers::is_synthetic_bits` (macro arm `$flag:ident as u16`):
the source tests `bits & Self::Synthetic != 1`. -/
def is_synthetic_bits (bits : Nat) : Bool :=
  bits &&& syntheticBit != 1

end Modifiers

/-! ## The Provider oracle and class entries -/

/-- Abstract view of the JNI environment as consumed by
`common_superclass`: `isAssignableFrom x y` is the uninterpreted answer the
runtime gives to the call written `x.is_assignable_from(env, y)` in the
source, `superclassOf` is the (successful) result of `get_superclass`,
`modifiersOf` the raw modifier word of a class, and `rootId` the identity of
the cache entry `fetch_class(env, "java/lang/Object")` returns. -/
structure Provider where
  isAssignableFrom : Nat → Nat → Bool
  superclassOf : Nat → Option Nat
  modifiersOf : Nat → Nat
  rootId : Nat

/-- One `ClassInternal` operand of `common_superclass`: its class identity
and whether `self_cached_weak_ref.get().and_then(Weak::upgrade)` still
succeeds (i.e. the owning cache slot is still strongly held). -/
structure ClassEntry where
  id : Nat
  upgradable : Bool
  deriving DecidableEq, Repr

/-! ## `common_superclass` — the live `ClassInternal` variant
(src/model/class.rs, lines 350-396) -/

/-- The `loop` of `ClassInternal::common_superclass`: the source returns the
current cursor as soon as `!other.is_assignable_from(env, &cls1_guard)?`
holds, otherwise steps to `cls1_guard.superclass(env)?`, and falls back to
`fetch_class(env, Self::OBJECT_JNI_CP)` when the chain ends.  `fuel` bounds
the number of iterations; `none` models a run that does not finish. -/
def chainLoopInternal (p : Provider) (b : Nat) :
    Nat → Nat → Option (Except HierError Nat)
  | 0, _ => none
  | fuel + 1, cursor =>
    if !(p.isAssignableFrom b cursor) then
      some (.ok cursor)
    else
      match p.superclassOf cursor with
      | some cls => chainLoopInternal p b fuel cls
      | none => some (.ok p.rootId)

/-- `ClassInternal::common_superclass` (src/model/class.rs): upgrade both
self references (raising `DanglingClassError` on failure), perform the two
assignability short-circuits, then walk the superclass chain of `a` with
`chainLoopInternal`. -/
def commonSuperclassInternal (p : Provider) (fuel : Nat) (a b : ClassEntry) :
    Option (Except HierError Nat) :=
  if !a.upgradable then some (.error (.danglingClassError a.id))
  else if !b.upgradable then some (.error (.danglingClassError b.id))
  else if p.isAssignableFrom b.id a.id then some (.ok a.id)
  else if p.isAssignableFrom a.id b.id then some (.ok b.id)
  else
    match p.superclassOf a.id with
    | some cls => chainLoopInternal p b.id fuel cls
    | none => some (.ok p.rootId)

/-! ## `common_superclass` — the earlier `Class` variant
(src/class.rs, lines 196-241) -/

/-- The `loop` of `Class::common_superclass` (src/class.rs): identical to
`chainLoopInternal` except that the cursor is returned when
`other.is_assignable_from(env, &cls1_guard)?` holds (no negation). -/
def chainLoopClass (p : Provider) (b : Nat) :
    Nat → Nat → Option (Except HierError Nat)
  | 0, _ => none
  | fuel + 1, cursor =>
    if p.isAssignableFrom b cursor then
      some (.ok cursor)
    else
      match p.superclassOf cursor with
      | some cls => chainLoopClass p b fuel cls
      | none => some (.ok p.rootId)

/-- `Class::common_superclass` (src/class.rs): same prologue as the
`ClassInternal` variant, then the positive-polarity chain walk. -/
def commonSuperclassClass (p : Provider) (fuel : Nat) (a b : ClassEntry) :
    Option (Except HierError Nat) :=
  if !a.upgradable then some (.error (.danglingClassError a.id))
  else if !b.upgradable then some (.error (.danglingClassError b.id))
  else if p.isAssignableFrom b.id a.id then some (.ok a.id)
  else if p.isAssignableFrom a.id b.id then some (.ok b.id)
  else
    match p.superclassOf a.id with
    | some cls => chainLoopClass p b.id fuel cls
    | none => some (.ok p.rootId)

/-! ## The class cache (src/classpool.rs, src/lib.rs)

The cache maps a canonical class-path string to the identity of the shared
`Arc<Mutex<ClassInternal>>` stored under it; handles (global refs) are
identified by naturals.  `HashMap::entry(..).or_insert(..)` keeps the value
already present and only inserts when the key is absent; an association
list ordered by insertion models this. -/

/-- The cache: canonical class path → identity of the cached entry handle. -/
abbrev ClassCache : Type := List (String × Nat)

/-- Lookup in the cache, as `HashMap::get` / `entry` key probing. -/
def cacheFind (cache : ClassCache) (cp : String) : Option Nat :=
  List.lookup cp cache

/-- Number of live entries, as `HashMap::len`. -/
def cacheLen (cache : ClassCache) : Nat := cache.length

/-- `fetch_class_from_jclass_internal` (src/classpool.rs lines 125-138 and
src/lib.rs lines 115-128): build a fresh entry `class` around the newly
created global ref `fresh`, then
`cache.entry(known_jclass_cp.to_string()).or_insert(class).clone()` — the
existing entry is returned untouched when the key is present (the fresh
entry is dropped), otherwise the fresh entry is inserted and returned. -/
def fetch_class_from_jclass_internal (cache : ClassCache) (cp : String)
    (fresh : Nat) : Nat × ClassCache :=
  match cacheFind cache cp with
  | some existing => (existing, cache)
  | none => (fresh, cache ++ [(cp, fresh)])

/-- `ClassPool::fetch_class` (src/classpool.rs lines 83-92): return a clone
of the cached entry on hit; on miss both the primitive path and the
`find_class` path locate a handle (`fresh` here) and defer to
`fetch_class_from_jclass_internal` under the same key. -/
def fetch_class (cache : ClassCache) (cp : String) (fresh : Nat) :
    Nat × ClassCache :=
  match cacheFind cache cp with
  | some existing => (existing, cache)
  | none => fetch_class_from_jclass_internal cache cp fresh

/-! ## Lazy memoized fields (`OnceCell::get_or_try_init`)

`ClassInternal.name/modifiers/superclass/interfaces` all run
`cell.get_or_try_init(|| provider call)`.  `once_cell` semantics: a filled
cell is returned as-is with no initializer run; an empty cell runs the
initializer, stores the value on `Ok`, and on `Err` returns the error
*leaving the cell empty*.  The provider is a sequence of outcomes indexed
by how many provider round trips have happened so far, so that `calls`
counts actual provider contacts. -/

/-- State of one lazily computed field: the `OnceCell` contents plus the
number of provider round trips performed so far. -/
structure LazyField (α : Type) where
  cell : Option α
  calls : Nat
  deriving DecidableEq, Repr

/-- One accessor call on a memoized field, i.e. one
`cell.get_or_try_init(|| provider(..))` evaluation (the shared shape of
`ClassInternal::name`, `modifiers`, `superclass`, `interfaces`). -/
def lazyGet {α : Type} (provider : Nat → Except HierError α)
    (s : LazyField α) : Except HierError α × LazyField α :=
  match s.cell with
  | some v => (.ok v, s)
  | none =>
    match provider s.calls with
    | .ok v => (.ok v, ⟨some v, s.calls + 1⟩)
    | .error e => (.error e, ⟨none, s.calls + 1⟩)

/-! ## The memoized superclass link (src/model/class.rs lines 234-246)

`superclass` memoizes an `Option<Weak<Mutex<Self>>>` and on every call maps
it through `opt_superclass.and_then(Weak::upgrade)`.  Weak handles are
naturals; `alive w` is the result of `Weak::upgrade` (`some` the `Arc`
identity while any strong reference survives, `none` once the cache slot
was dropped and no other strong holder remains). -/

/-- `ClassInternal::superclass`: `get_or_try_init` on the memoized
`Option (weak id)` cell, then `.map(Option::as_ref)` and
`.map(|o| o.and_then(Weak::upgrade))`.  `compute` is the
`env.get_superclass` + `fetch_class_from_jclass` + `Arc::downgrade`
initializer, again indexed by provider round trips. -/
def superclassGet (alive : Nat → Option Nat)
    (compute : Nat → Except HierError (Option Nat))
    (s : LazyField (Option Nat)) :
    Except HierError (Option Nat) × LazyField (Option Nat) :=
  match lazyGet compute s with
  | (.ok memo, s1) => (.ok (memo.bind alive), s1)
  | (.error e, s1) => (.error e, s1)

/-! ## Identifier normalizer (src/classpath.rs)

`ClassPath::convert` is built from Rust `str::replace` (all leftmost
non-overlapping occurrences), `str::matches(..).count()` (same occurrence
rule), `str::repeat`, `str::starts_with` and a
`chars().skip(1).take_while(|c| *c != ';')` scan.  These are reproduced
over `List Char`; the fuel argument is `length + 1`, which every run
strictly decrements while consuming at least one character, so it never
runs out. -/

/-- `str::starts_with` on character lists. -/
def listStartsWith : List Char → List Char → Bool
  | _, [] => true
  | [], _ :: _ => false
  | c :: cs, p :: ps => c == p && listStartsWith cs ps

/-- Worker for `str::replace`: replace every leftmost non-overlapping
occurrence of `pat` (non-empty in all uses) by `rep`. -/
def replaceAux (pat rep : List Char) : Nat → List Char → List Char
  | 0, s => s
  | _ + 1, [] => []
  | fuel + 1, c :: cs =>
    if pat.length != 0 && listStartsWith (c :: cs) pat then
      rep ++ replaceAux pat rep fuel (List.drop (pat.length - 1) cs)
    else
      c :: replaceAux pat rep fuel cs

/-- `str::replace` on strings. -/
def strReplace (s pat rep : String) : String :=
  String.mk (replaceAux pat.data rep.data (s.data.length + 1) s.data)

/-- Worker for `str::matches(pat).count()`: count leftmost non-overlapping
occurrences. -/
def countAux (pat : List Char) : Nat → List Char → Nat
  | 0, _ => 0
  | _ + 1, [] => 0
  | fuel + 1, c :: cs =>
    if pat.length != 0 && listStartsWith (c :: cs) pat then
      countAux pat fuel (List.drop (pat.length - 1) cs) + 1
    else
      countAux pat fuel cs

/-- `s.matches(pat).count()` on strings. -/
def strCountMatches (s pat : String) : Nat :=
  countAux pat.data (s.data.length + 1) s.data

/-- `str::repeat`. -/
def strRepeat (s : String) (n : Nat) : String :=
  String.mk (List.replicate n s.data).flatten

/-- `str::starts_with` on strings. -/
def strStartsWith (s pre : String) : Bool :=
  listStartsWith s.data pre.data

/-- The `PRIMITIVE_TYPES_TO_DESC` phf map (src/classpath.rs lines 3-13). -/
def PRIMITIVE_TYPES_TO_DESC : List (String × String) :=
  [("void", "V"), ("boolean", "Z"), ("byte", "B"), ("char", "C"),
   ("short", "S"), ("int", "I"), ("long", "J"), ("float", "F"),
   ("double", "D")]

/-- `PRIMITIVE_TYPES_TO_DESC.get(key)`. -/
def primDescGet (key : String) : Option String :=
  List.lookup key PRIMITIVE_TYPES_TO_DESC

/-- `PRIMITIVE_TYPES_TO_DESC.values()`. -/
def primDescValues : List String :=
  PRIMITIVE_TYPES_TO_DESC.map Prod.snd

/-- Mirror of `enum ClassPath { Java(String), JNI(String) }`. -/
inductive ClassPath where
  | java (cp : String) : ClassPath
  | jni (cp : String) : ClassPath
  deriving DecidableEq, Repr

/-- `ClassPath::convert` (src/classpath.rs lines 33-67), in both
directions, exactly as written: the dotted→JNI arm replaces `.`→`/`,
strips `[]` pairs, counts dimensions on the original spelling, and wraps
either a primitive descriptor or an `L...;` envelope; the JNI→dotted arm
replaces `/`→`.`, strips `[` markers, and unless the remainder starts with
a primitive descriptor letter drops the leading envelope character and
everything from `;` on, then appends one `[]` per dimension. -/
def ClassPath.convert : ClassPath → ClassPath
  | .java cp =>
    let jniCp := strReplace (strReplace cp "." "/") "[]" ""
    let arrayDim := strCountMatches cp "[]"
    if arrayDim > 0 then
      match primDescGet jniCp with
      | some desc => .jni (strRepeat "[" arrayDim ++ desc)
      | none => .jni (strRepeat "[" arrayDim ++ "L" ++ jniCp ++ ";")
    else
      .jni jniCp
  | .jni cp =>
    let javaCp := strReplace (strReplace cp "/" ".") "[" ""
    let arrayDim := strCountMatches cp "["
    if arrayDim > 0 then
      let stripped :=
        if !(primDescValues.any fun desc => strStartsWith javaCp desc) then
          String.mk (List.takeWhile (fun c => c != ';') (javaCp.data.drop 1))
        else
          javaCp
      .java (stripped ++ strRepeat "[]" arrayDim)
    else
      .java javaCp

/-! ## Concrete fixtures

A five-class Java hierarchy used to evaluate the embedded algorithms:
`0 = java/lang/Object`, `1 = java/lang/Integer`, `2 = java/lang/Number`,
`3 = java/lang/Runnable` (an interface), `4 = java/lang/String`.
`javaSub` is the subtype relation (`x <: y` pairs);
`isAssignableFrom r a` answers the Java call `r.isAssignableFrom(a)`,
which holds exactly when `a <: r`. -/

/-- Subtyping pairs `(sub, sup)` of the fixture hierarchy. -/
def javaSub : List (Nat × Nat) :=
  [(0, 0), (1, 1), (2, 2), (3, 3), (4, 4),
   (1, 2), (1, 0), (2, 0), (3, 0), (4, 0)]

/-- The fixture Provider over the five-class hierarchy: superclass chains
`Integer → Number → Object` and `String → Object`, `Runnable` an interface
(no superclass, `Interface | Abstract | Public` modifier word), root
`Object`. -/
def pJava : Provider where
  isAssignableFrom := fun receiver arg => javaSub.contains (arg, receiver)
  superclassOf := fun c =>
    if c = 1 then some 2
    else if c = 2 then some 0
    else if c = 4 then some 0
    else none
  modifiersOf := fun c => if c = 3 then 0x0601 else 0x0021
  rootId := 0

/-- A provider computation that fails on its first round trip and succeeds
with `42` on every later one. -/
def flakyProvider : Nat → Except HierError Nat :=
  fun calls => if calls = 0 then .error .javaError else .ok 42

/-! ## Association-list helper lemmas for the cache model -/

/-- A key found in the front list is found in the concatenation. -/
theorem lookup_append_of_some {l₁ l₂ : List (String × Nat)} {k : String}
    {v : Nat} (h : List.lookup k l₁ = some v) :
    List.lookup k (l₁ ++ l₂) = some v := by
  induction l₁ with
  | nil => simp [List.lookup] at h
  | cons p rest ih =>
    obtain ⟨a, b⟩ := p
    by_cases hk : (k == a)
    · simp [List.lookup, hk] at h ⊢
      exact h
    · simp only [Bool.not_eq_true] at hk
      simp [List.lookup, hk] at h ⊢
      exact ih h

/-- A key absent from the front list is looked up in the back list. -/
theorem lookup_append_of_none {l₁ l₂ : List (String × Nat)} {k : String}
    (h : List.lookup k l₁ = none) :
    List.lookup k (l₁ ++ l₂) = List.lookup k l₂ := by
  induction l₁ with
  | nil => simp
  | cons p rest ih =>
    obtain ⟨a, b⟩ := p
    by_cases hk : (k == a)
    · simp [List.lookup, hk] at h
    · simp only [Bool.not_eq_true] at hk
      simp only [List.lookup, hk, List.cons_append] at h ⊢
      exact ih h

/-! ## Claim theorems -/

/-- C1: the claim states that the chain walk returns the first cursor for
which `b.is_assignable_from(cursor)` is TRUE and advances only while it is
false.  The live `ClassInternal::common_superclass` does the opposite: on
the fixture hierarchy with `a = Integer (1)`, `b = String (4)` (neither
assignable from the other) it returns cursor `Number (2)` although
`b.is_assignable_from(Number)` is false, while the earlier
`Class::common_superclass` variant — which implements the claimed
polarity — exhausts the chain and returns the root `Object (0)`. -/
theorem c1_internal_walk_inverted_polarity :
    pJava.isAssignableFrom 4 1 = false ∧
    pJava.isAssignableFrom 1 4 = false ∧
    commonSuperclassInternal pJava 10 ⟨1, true⟩ ⟨4, true⟩ = some (.ok 2) ∧
    pJava.isAssignableFrom 4 2 = false ∧
    commonSuperclassClass pJava 10 ⟨1, true⟩ ⟨4, true⟩ = some (.ok 0) ∧
    pJava.rootId = 0 :=
  ⟨rfl, rfl, rfl, rfl, rfl, rfl⟩

/-- C2: the claim states an explicit step-3 short-circuit — if either
operand is an interface, return the root entry before walking.  Neither
`common_superclass` variant tests `is_interface` at all: on the fixture
with `a = Integer (1)` and `b = Runnable (3)` (an interface, modifier word
`0x0601`, neither operand assignable from the other) the live
`ClassInternal` variant walks the chain and returns `Number (2)`, not the
root `Object (0)`. -/
theorem c2_interface_short_circuit_missing :
    Modifiers.is_interface_bits (pJava.modifiersOf 3) = true ∧
    pJava.isAssignableFrom 3 1 = false ∧
    pJava.isAssignableFrom 1 3 = false ∧
    commonSuperclassInternal pJava 10 ⟨1, true⟩ ⟨3, true⟩ = some (.ok 2) ∧
    pJava.rootId = 0 ∧ (2 : Nat) ≠ 0 :=
  ⟨rfl, rfl, rfl, rfl, rfl, by decide⟩

/-- C3 counterexample: the claim states the freshly supplied handle
replaces the cached entry's handle.  With handle `1` cached under
`java/lang/Integer` and fresh handle `2` supplied,
`fetch_class_from_jclass_internal` leaves handle `1` in the cache: the
cache does not map the identifier to the fresh handle `2` afterwards. -/
theorem c3_replacement_policy_false :
    cacheFind (fetch_class_from_jclass_internal
      [("java/lang/Integer", 1)] "java/lang/Integer" 2).2
      "java/lang/Integer" ≠ some 2 := by
  decide

/-- C3 amended: when an entry is already cached under the derived canonical
identifier, `fetch_class_from_jclass_internal` keeps the cached entry and
its original handle and discards the freshly supplied handle — first
resolved wins, the cache is unchanged. -/
theorem c3_cached_handle_wins (cache : ClassCache) (cp : String)
    (fresh existing : Nat) (h : cacheFind cache cp = some existing) :
    fetch_class_from_jclass_internal cache cp fresh = (existing, cache) := by
  simp [fetch_class_from_jclass_internal, h]

/-- C3 witness: the amended statement at a concrete cache. -/
theorem c3_cached_handle_wins_witness :
    cacheFind [("java/lang/Integer", 1)] "java/lang/Integer" = some 1 ∧
    fetch_class_from_jclass_internal [("java/lang/Integer", 1)]
      "java/lang/Integer" 2 = (1, [("java/lang/Integer", 1)]) :=
  ⟨rfl, c3_cached_handle_wins [("java/lang/Integer", 1)] "java/lang/Integer" 2 1 rfl⟩

/-- C4: the claim states `convert(convert(s)) = s` for every legal
spelling, including primitive array types.  On the legal Java spelling
`int[]` (the repository's own tests look it up), `ClassPath::convert`
produces the JNI spelling `[I`, but converting back yields `I[]` — the
JNI→Java arm never maps a primitive descriptor letter back to the
primitive name — so the double conversion is not the identity. -/
theorem c4_round_trip_fails_on_primitive_array :
    ClassPath.convert (ClassPath.convert (.java "int[]")) = .java "I[]" ∧
    ClassPath.java "I[]" ≠ ClassPath.java "int[]" :=
  ⟨by decide, by decide⟩

/-- C5: the claim states the raw predicates are pure bitmask tests (true
iff the flag bit is set).  `is_interface_bits` is (it goes through
`from_bits_truncate`/`contains`), but the `$flag as u16` macro arm
generates `bits & FLAG != 1` for `is_annotation_bits` and
`is_synthetic_bits`; since `bits & 0x2000` and `bits & 0x1000` are never
`1`, both predicates return `true` for every `u16`, also when the flag bit
is clear. -/
theorem c5_annotation_synthetic_bits_always_true :
    ∀ m : Nat, Modifiers.is_annotation_bits m = true ∧
      Modifiers.is_synthetic_bits m = true := by
  have key : ∀ m b : Nat, b.testBit 0 = false → (m &&& b) ≠ 1 := by
    intro m b hb h
    have hbit : (m &&& b).testBit 0 = true := by rw [h]; decide
    rw [Nat.testBit_land, hb, Bool.and_false] at hbit
    exact absurd hbit (by decide)
  intro m
  refine ⟨?_, ?_⟩
  · simp only [Modifiers.is_annotation_bits, bne_iff_ne, ne_eq]
    exact key m Modifiers.annotationBit (by decide)
  · simp only [Modifiers.is_synthetic_bits, bne_iff_ne, ne_eq]
    exact key m Modifiers.syntheticBit (by decide)

/-- C6: the cache holds at most one live entry per canonical identifier:
a hit returns the existing entry and leaves the cache untouched (the
freshly built entry is discarded), a miss returns the fresh entry, grows
the cache by exactly one, binds the identifier to the fresh entry, and
changes no other binding. -/
theorem c6_cache_at_most_one_entry_per_identifier
    (cache : ClassCache) (cp : String) (fresh : Nat) :
    (∀ existing, cacheFind cache cp = some existing →
      fetch_class cache cp fresh = (existing, cache)) ∧
    (cacheFind cache cp = none →
      (fetch_class cache cp fresh).1 = fresh ∧
      cacheLen (fetch_class cache cp fresh).2 = cacheLen cache + 1 ∧
      cacheFind (fetch_class cache cp fresh).2 cp = some fresh ∧
      ∀ k, k ≠ cp →
        cacheFind (fetch_class cache cp fresh).2 k = cacheFind cache k) := by
  constructor
  · intro existing h
    simp [fetch_class, h]
  · intro h
    have hfc : fetch_class cache cp fresh = (fresh, cache ++ [(cp, fresh)]) := by
      simp only [fetch_class, fetch_class_from_jclass_internal, h]
    refine ⟨by simp [hfc], by simp [hfc, cacheLen], ?_, ?_⟩
    · rw [hfc]
      have := @lookup_append_of_none cache [(cp, fresh)] cp h
      simpa [cacheFind, List.lookup] using this
    · intro k hk
      rw [hfc]
      cases hcache : cacheFind cache k with
      | some v => exact lookup_append_of_some hcache
      | none =>
        show List.lookup k (cache ++ [(cp, fresh)]) = none
        rw [lookup_append_of_none hcache]
        simp [List.lookup, beq_false_of_ne hk]

/-- C6 witness: a hit on a one-entry cache returns the existing entry
unchanged, and a miss on the empty cache grows it to one entry. -/
theorem c6_cache_at_most_one_entry_per_identifier_witness :
    fetch_class [("java/lang/Object", 7)] "java/lang/Object" 9
        = (7, [("java/lang/Object", 7)]) ∧
    cacheLen (fetch_class [] "java/lang/Object" 9).2 = 1 :=
  ⟨(c6_cache_at_most_one_entry_per_identifier
      [("java/lang/Object", 7)] "java/lang/Object" 9).1 7 rfl,
   ((c6_cache_at_most_one_entry_per_identifier
      [] "java/lang/Object" 9).2 rfl).2.1⟩

/-- C7 counterexample: the claim states a failed first accessor call is
memoized and every later call observes that same failure.  With a provider
whose first round trip fails and whose second succeeds with `42`, the
first `get_or_try_init` call returns the error but leaves the cell unset,
and the second call re-contacts the provider (the round-trip counter
reaches 2) and returns `ok 42`, not the first failure. -/
theorem c7_failure_not_memoized :
    (lazyGet flakyProvider ⟨none, 0⟩).1 = .error .javaError ∧
    (lazyGet flakyProvider ⟨none, 0⟩).2.cell = none ∧
    (lazyGet flakyProvider (lazyGet flakyProvider ⟨none, 0⟩).2).1 = .ok 42 ∧
    (lazyGet flakyProvider (lazyGet flakyProvider ⟨none, 0⟩).2).2.calls = 2 :=
  ⟨rfl, rfl, rfl, rfl⟩

/-- C7 amended: a successful first computation is memoized — every later
call returns the same cached value with no further provider contact — but
a failed computation leaves the field unset and a later call re-runs the
provider computation (failures are not memoized). -/
theorem c7_success_memoized_failure_unset {α : Type}
    (provider : Nat → Except HierError α) :
    (∀ (v : α) (calls : Nat),
      lazyGet provider ⟨some v, calls⟩ = (.ok v, ⟨some v, calls⟩)) ∧
    (∀ (calls : Nat) (v : α), provider calls = .ok v →
      lazyGet provider ⟨none, calls⟩ = (.ok v, ⟨some v, calls + 1⟩)) ∧
    (∀ (calls : Nat) (e : HierError), provider calls = .error e →
      lazyGet provider ⟨none, calls⟩ = (.error e, ⟨none, calls + 1⟩)) :=
  ⟨fun _ _ => rfl,
   fun calls v h => by simp [lazyGet, h],
   fun calls e h => by simp [lazyGet, h]⟩

/-- C7 witness: the amended statement at the concrete flaky provider. -/
theorem c7_success_memoized_failure_unset_witness :
    lazyGet flakyProvider ⟨some 42, 1⟩ = (.ok 42, ⟨some 42, 1⟩) ∧
    lazyGet flakyProvider ⟨none, 0⟩ = (.error .javaError, ⟨none, 1⟩) :=
  ⟨(c7_success_memoized_failure_unset flakyProvider).1 42 1,
   (c7_success_memoized_failure_unset flakyProvider).2.2 0 .javaError rfl⟩

/-- C8: `common_superclass(X, X) = X` for every entry whose self reference
is still upgradable, via the step-1 short-circuit, provided the provider
answers `X.is_assignable_from(X)` with true — in both source variants. -/
theorem c8_common_superclass_reflexive (p : Provider) (fuel : Nat)
    (x : ClassEntry) (hup : x.upgradable = true)
    (hrefl : p.isAssignableFrom x.id x.id = true) :
    commonSuperclassInternal p fuel x x = some (.ok x.id) ∧
    commonSuperclassClass p fuel x x = some (.ok x.id) := by
  constructor
  · simp [commonSuperclassInternal, hup, hrefl]
  · simp [commonSuperclassClass, hup, hrefl]

/-- C8 witness: reflexivity at the fixture entry `Integer (1)`. -/
theorem c8_common_superclass_reflexive_witness :
    commonSuperclassInternal pJava 5 ⟨1, true⟩ ⟨1, true⟩ = some (.ok 1) ∧
    commonSuperclassClass pJava 5 ⟨1, true⟩ ⟨1, true⟩ = some (.ok 1) :=
  c8_common_superclass_reflexive pJava 5 ⟨1, true⟩ rfl rfl

/-- C9: when either operand's self reference can no longer be upgraded,
`common_superclass` (both variants) fails with the distinct
`DanglingClassError` for that operand instead of recomputing. -/
theorem c9_dangling_self_ref_is_error (p : Provider) (fuel : Nat)
    (a b : ClassEntry) (h : a.upgradable = false ∨ b.upgradable = false) :
    ∃ d, commonSuperclassInternal p fuel a b
          = some (.error (.danglingClassError d)) ∧
         commonSuperclassClass p fuel a b
          = some (.error (.danglingClassError d)) ∧
         (d = a.id ∨ d = b.id) := by
  cases hA : a.upgradable with
  | false =>
    exact ⟨a.id, by simp [commonSuperclassInternal, hA],
           by simp [commonSuperclassClass, hA], Or.inl rfl⟩
  | true =>
    cases hB : b.upgradable with
    | false =>
      exact ⟨b.id, by simp [commonSuperclassInternal, hA, hB],
             by simp [commonSuperclassClass, hA, hB], Or.inr rfl⟩
    | true =>
      rcases h with h | h
      · rw [hA] at h; exact absurd h (by decide)
      · rw [hB] at h; exact absurd h (by decide)

/-- C9 witness: a dangling first operand yields the dangling error. -/
theorem c9_dangling_self_ref_is_error_witness :
    ∃ d, commonSuperclassInternal pJava 5 ⟨1, false⟩ ⟨2, true⟩
          = some (.error (.danglingClassError d)) ∧
         commonSuperclassClass pJava 5 ⟨1, false⟩ ⟨2, true⟩
          = some (.error (.danglingClassError d)) ∧
         (d = 1 ∨ d = 2) :=
  c9_dangling_self_ref_is_error pJava 5 ⟨1, false⟩ ⟨2, true⟩ (Or.inl rfl)

/-- C10: once the superclass field is memoized as a weak reference, if the
strong holder of that superclass entry is gone (`Weak::upgrade` returns
none), a later `superclass()` call returns `Ok(None)` — exactly the
no-superclass answer — with the memo cell unchanged and no further
provider contact, rather than the original entry or a dangling error. -/
theorem c10_dropped_weak_superclass_reads_as_none
    (alive : Nat → Option Nat)
    (compute : Nat → Except HierError (Option Nat))
    (w calls : Nat) (h : alive w = none) :
    superclassGet alive compute ⟨some (some w), calls⟩
      = (.ok none, ⟨some (some w), calls⟩) := by
  simp [superclassGet, lazyGet, h]

/-- C10 witness: a memoized weak link that no longer upgrades. -/
theorem c10_dropped_weak_superclass_reads_as_none_witness :
    superclassGet (fun _ => none) (fun _ => .ok none) ⟨some (some 5), 1⟩
      = (.ok none, ⟨some (some 5), 1⟩) :=
  c10_dropped_weak_superclass_reads_as_none
    (fun _ => none) (fun _ => .ok none) 5 1 rfl

end Hier
